import Mathlib

/-!
Verification of the arc.js event-fetching, entity-transformation,
proposal/voting and transaction-correlation core, as a shallow embedding
in Lean 4.  Each definition is translated from the TypeScript source
(src/lib and src/unnamed of the repository); the file cites the source
location above every definition.
-/

namespace ArcJs

/-- Transaction hash, `Hash` in src/lib/commonTypes (`export type Hash = string`). -/
abbrev Hash := String

/-- Error objects of the web3 layer, modelled by their message. -/
abbrev JsError := String

/-- One decoded web3 log entry (`DecodedLogEntryEvent<TEventArgs>`): the
transaction hash that identifies the emitting transaction, and the decoded
event arguments. -/
structure DecodedLogEntry (Args : Type) where
  transactionHash : Hash
  args : Args
  deriving Repr, DecidableEq

/-- The `log` parameter delivered by web3 to an event callback: either a bare
entry or an array of entries (`DecodedLogEntryEvent<T> | Array<DecodedLogEntryEvent<T>>`). -/
inductive RawLog (Args : Type) where
  | scalar (entry : DecodedLogEntry Args)
  | list (entries : List (DecodedLogEntry Args))
  deriving Repr, DecidableEq

/-- Array normalization at the top of `createEventHandler`
(src/lib/web3EventService.ts 242-246, src/unnamed/part_009 270-274):
on an error the log becomes the empty array, a scalar log becomes a
one-element array. -/
def normalizeLog (error : Option JsError) (log : RawLog Args) :
    List (DecodedLogEntry Args) :=
  match error, log with
  | some _, _ => []
  | none, .scalar e => [e]
  | none, .list l => l

/-- The duplicate-suppression filter of `createEventHandler`
(src/lib/web3EventService.ts 251-260, src/unnamed/part_009 279-288):
walk the log in order; an entry whose transactionHash is already in the
`receivedEvents` set is dropped, otherwise the hash is added to the set and
the entry kept.  Returns the grown set together with the retained entries. -/
def dedupBatch (seen : List Hash) :
    List (DecodedLogEntry Args) → List Hash × List (DecodedLogEntry Args)
  | [] => (seen, [])
  | e :: rest =>
    if e.transactionHash ∈ seen then
      dedupBatch seen rest
    else
      let p := dedupBatch (e.transactionHash :: seen) rest
      (p.1, e :: p.2)

/-- Truthiness of the `suppressDups` filter option as `createEventHandler`
tests it (`if (!!suppressDups)`): an absent option (`none`, the caller did
not set the field) is falsy, as are explicit `false` values. -/
def suppressDupsEnabled (suppressDups : Option Bool) : Bool :=
  suppressDups.getD false

/-- One invocation of the closure returned by `createEventHandler`
(src/lib/web3EventService.ts 234-268, src/unnamed/part_009 262-301), without
the optional pre-process hook: normalize the log to an array, then prune
duplicates when `receivedEvents` was created (that is, when `suppressDups`
was truthy at fetcher construction).  The seen set is threaded explicitly:
in the source it is the closure-captured `receivedEvents` of one fetcher. -/
def handleEventStep (suppressDups : Option Bool) (seen : List Hash)
    (error : Option JsError) (log : RawLog Args) :
    List Hash × (Option JsError × List (DecodedLogEntry Args)) :=
  let l := normalizeLog error log
  if suppressDupsEnabled suppressDups then
    let p := dedupBatch seen l
    (p.1, (error, p.2))
  else
    (seen, (error, l))

/-- The deliveries of one fetcher instance over a window of raw callbacks:
`createEventHandler` is called once per fetcher (inside the factory closure,
src/lib/web3EventService.ts 47-49), so the same seen set serves every `get`
and `watch` callback of that fetcher and no other fetcher.  Each element of
the window is one (error, log) pair handed to the handler. -/
def fetcherRun (suppressDups : Option Bool) (seen : List Hash) :
    List (Option JsError × RawLog Args) →
    List Hash × List (Option JsError × List (DecodedLogEntry Args))
  | [] => (seen, [])
  | (err, lg) :: rest =>
    let s := handleEventStep suppressDups seen err lg
    let r := fetcherRun suppressDups s.1 rest
    (r.1, s.2 :: r.2)

/-- Number of entries of a log array that carry the transaction hash `h`. -/
def countHash (h : Hash) (l : List (DecodedLogEntry Args)) : Nat :=
  l.countP (fun e => e.transactionHash == h)

/-- Total number of delivered entries carrying hash `h` over the deliveries
of a window. -/
def deliveredCount (h : Hash)
    (ds : List (Option JsError × List (DecodedLogEntry Args))) : Nat :=
  (ds.map (fun d => countHash h d.2)).sum

/-- Total number of raw occurrences of hash `h` in a window, after array
normalization. -/
def windowCount (h : Hash) (w : List (Option JsError × RawLog Args)) : Nat :=
  (w.map (fun b => countHash h (normalizeLog b.1 b.2))).sum

theorem countHash_nil (h : Hash) : countHash h ([] : List (DecodedLogEntry Args)) = 0 := rfl

theorem countHash_cons (h : Hash) (e : DecodedLogEntry Args)
    (l : List (DecodedLogEntry Args)) :
    countHash h (e :: l) =
      countHash h l + (if e.transactionHash = h then 1 else 0) := by
  simp [countHash, List.countP_cons]

theorem mem_dedupBatch_seen (h : Hash) (seen : List Hash)
    (l : List (DecodedLogEntry Args)) :
    h ∈ (dedupBatch seen l).1 ↔ h ∈ seen ∨ 0 < countHash h l := by
  induction l generalizing seen with
  | nil => simp [dedupBatch, countHash_nil]
  | cons e rest ih =>
    rw [countHash_cons]
    by_cases hmem : e.transactionHash ∈ seen
    · rw [show dedupBatch seen (e :: rest) = dedupBatch seen rest from by
        simp [dedupBatch, hmem]]
      rw [ih]
      by_cases hh : e.transactionHash = h
      · subst hh
        simp [hmem]
      · simp [if_neg hh]
    · rw [show dedupBatch seen (e :: rest) =
        ((dedupBatch (e.transactionHash :: seen) rest).1,
          e :: (dedupBatch (e.transactionHash :: seen) rest).2) from by
        simp [dedupBatch, hmem]]
      rw [ih]
      by_cases hh : e.transactionHash = h
      · subst hh
        simp
      · simp only [List.mem_cons, if_neg hh]
        constructor
        · rintro ((hc | hc) | hc)
          · exact absurd hc.symm hh
          · exact Or.inl hc
          · exact Or.inr (by omega)
        · rintro (hc | hc)
          · exact Or.inl (Or.inr hc)
          · exact Or.inr (by omega)

theorem countHash_dedupBatch (h : Hash) (seen : List Hash)
    (l : List (DecodedLogEntry Args)) :
    countHash h (dedupBatch seen l).2 =
      if h ∈ seen then 0 else min (countHash h l) 1 := by
  induction l generalizing seen with
  | nil => simp [dedupBatch, countHash_nil]
  | cons e rest ih =>
    rw [countHash_cons]
    by_cases hmem : e.transactionHash ∈ seen
    · rw [show dedupBatch seen (e :: rest) = dedupBatch seen rest from by
        simp [dedupBatch, hmem]]
      rw [ih]
      by_cases hh : e.transactionHash = h
      · subst hh
        simp [hmem]
      · simp [if_neg hh]
    · rw [show dedupBatch seen (e :: rest) =
        ((dedupBatch (e.transactionHash :: seen) rest).1,
          e :: (dedupBatch (e.transactionHash :: seen) rest).2) from by
        simp [dedupBatch, hmem]]
      rw [countHash_cons, ih]
      by_cases hh : e.transactionHash = h
      · subst hh
        have h1 : e.transactionHash ∈ e.transactionHash :: seen := by simp
        rw [if_pos h1, if_pos rfl, if_neg hmem]
        omega
      · have hmem2 : (h ∈ e.transactionHash :: seen) = (h ∈ seen) := by
          simp [List.mem_cons, Ne.symm hh]
        simp only [hmem2, if_neg hh]
        by_cases hs : h ∈ seen
        · rw [if_pos hs, if_pos hs]
        · rw [if_neg hs, if_neg hs]
          omega

theorem deliveredCount_fetcherRun_dedup (h : Hash) (seen : List Hash)
    (w : List (Option JsError × RawLog Args)) :
    deliveredCount h (fetcherRun (some true) seen w).2 =
      (if h ∈ seen then 0 else min (windowCount h w) 1) ∧
    (h ∈ (fetcherRun (some true) seen w).1 ↔ h ∈ seen ∨ 0 < windowCount h w) := by
  induction w generalizing seen with
  | nil => simp [fetcherRun, deliveredCount, windowCount]
  | cons b rest ih =>
    obtain ⟨err, lg⟩ := b
    have hstep : handleEventStep (some true) seen err lg =
        ((dedupBatch seen (normalizeLog err lg)).1,
          (err, (dedupBatch seen (normalizeLog err lg)).2)) := by
      simp [handleEventStep, suppressDupsEnabled]
    have ih' := ih (dedupBatch seen (normalizeLog err lg)).1
    constructor
    · simp only [fetcherRun, hstep, deliveredCount, List.map_cons, List.sum_cons]
      have h1 := countHash_dedupBatch h seen (normalizeLog err lg)
      have h2 := ih'.1
      have h3 := mem_dedupBatch_seen h seen (normalizeLog err lg)
      simp only [deliveredCount] at h2
      rw [h1, h2]
      simp only [windowCount, List.map_cons, List.sum_cons]
      by_cases hs : h ∈ seen
      · simp only [if_pos hs, if_pos (h3.2 (Or.inl hs))]
      · by_cases hc : 0 < countHash h (normalizeLog err lg)
        · have : h ∈ (dedupBatch seen (normalizeLog err lg)).1 := h3.2 (Or.inr hc)
          simp only [if_neg hs, if_pos this]
          omega
        · have : h ∉ (dedupBatch seen (normalizeLog err lg)).1 := by
            intro hmem
            rcases h3.1 hmem with hkk | hkk
            · exact hs hkk
            · exact hc hkk
          simp only [if_neg hs, if_neg this]
          omega
    · simp only [fetcherRun, hstep]
      rw [ih'.2]
      have h3 := mem_dedupBatch_seen h seen (normalizeLog err lg)
      rw [h3]
      simp only [windowCount, List.map_cons, List.sum_cons]
      constructor
      · rintro ((hk | hk) | hk)
        · exact Or.inl hk
        · exact Or.inr (by omega)
        · exact Or.inr (by omega)
      · rintro (hk | hk)
        · exact Or.inl (Or.inl hk)
        · by_cases hc : 0 < countHash h (normalizeLog err lg)
          · exact Or.inl (Or.inr hc)
          · exact Or.inr (by omega)

/-! ## Entity transformation (src/unnamed/part_009, `createEntityFetcherFactory`)

The handler at src/unnamed/part_009 lines 143-169 turns one batch of
decoded log entries into the promise of an entity array: it walks the log
in order, awaits the transform of each entry, pushes the result unless it
is `undefined`, and resolves the collected array after the loop; a batch
whose `error` argument is set is rejected with that error before the loop.
Transform rejections are modelled as `Except.error` outcomes of the batch. -/

/-- The entity-building loop of `handleEvent` in `createEntityFetcherFactory`
(src/unnamed/part_009 154-162): sequential awaits, exclusion on `undefined`,
first transform failure aborts the batch. -/
def transformBatch (t : Args → Except JsError (Option Entity)) :
    List (DecodedLogEntry Args) → Except JsError (List Entity)
  | [] => .ok []
  | e :: rest =>
    match t e.args with
    | .error err => .error err
    | .ok none => transformBatch t rest
    | .ok (some x) => (transformBatch t rest).map (fun l => x :: l)

/-- The outcome of an asynchronous computation together with the number of
abstract ticks it took to complete: `await` of a transform contributes the
ticks of that transform before the next loop iteration starts. -/
structure Timed (α : Type) where
  time : Nat
  val : α
  deriving Repr, DecidableEq

/-- The same entity-building loop with completion time made explicit
(src/unnamed/part_009 154-162, error-free transforms): the loop awaits the
transform of every entry in order, so the batch resolves only after the sum
of all per-entry transform times has elapsed. -/
def transformBatchTimed (t : Args → Timed (Option Entity)) :
    List (DecodedLogEntry Args) → Timed (List Entity)
  | [] => ⟨0, []⟩
  | e :: rest =>
    let r := t e.args
    let q := transformBatchTimed t rest
    ⟨r.time + q.time,
      match r.val with
      | some x => x :: q.val
      | none => q.val⟩

/-! ## The older revision src/lib/web3EventService.ts of the entity handler

In src/lib/web3EventService.ts lines 128-151 the branches of the entity
handler are inverted: the branch guarded by `if (!!error)` (error present)
runs the transforms and calls `resolve`, while the `else` branch (no error)
calls `reject(error)` with the absent error.  Moreover the transform loop
there is a fire-and-forget `log.forEach(async ...)`: every push into
`entities` is preceded by an await, so at the moment `resolve(entities)`
runs the array is still empty (and on the reachable path the event handler
has already normalized `log` to `[]`).  The value observed at settlement
is therefore: resolved `[]` when the source reported an error, rejected
with the absent error when it did not. -/

/-- Settlement of the promise built by the entity handler of the older
revision (src/lib/web3EventService.ts 131-148).  The `log` argument is kept
for the pipeline shape; no push can precede the synchronous `resolve`, so
the resolved array is empty whatever the log holds. -/
def entityHandleEventLib (Entity : Type) (error : Option JsError)
    (log : List (DecodedLogEntry Args)) : Except (Option JsError) (List Entity) :=
  match error with
  | some _ => .ok []
  | none => .error none

/-- End-to-end `EntityFetcher.get` of the older revision: the wrapped event
fetcher normalizes and optionally dedups the raw log
(src/lib/web3EventService.ts 72-78 then 234-268), then hands the pair to the
entity handler (src/lib/web3EventService.ts 175-179 then 128-151). -/
def entityGetLib (Entity : Type) (suppressDups : Option Bool) (seen : List Hash)
    (error : Option JsError) (log : RawLog Args) :
    Except (Option JsError) (List Entity) :=
  let s := handleEventStep suppressDups seen error log
  entityHandleEventLib Entity s.2.1 s.2.2

/-! ## pipeEntityFetcherFactory (src/lib/web3EventService.ts 201-217,
src/unnamed/part_009 226-245)

The source calls the given factory once, overwrites the
`transformEventCallback` property of that one discarded fetcher object,
and returns the original factory.  Two consequences, both visible in the
source: the fetchers later produced by the returned factory run the
closure variable `transformEventCallback` captured by
`createEntityFetcherFactory` (src/unnamed/part_009 line 157), which the
property assignment never touches, so they deliver entities of the first
transform only; and the replacement callback reads
`fetcher.transformEventCallback` at call time, which after the assignment
is the replacement itself, so on the one mutated fetcher it would recurse
on itself instead of invoking the old transform. -/

/-- A factory produced by `createEntityFetcherFactory`: the closure captures
the transform used by every fetcher the factory creates. -/
structure EntityFetcherFactoryModel (Args Entity : Type) where
  transformEventCallback : Args → Option Entity

/-- Entities delivered by a `get` batch of a fetcher created by the factory:
the loop of src/unnamed/part_009 154-162 over the closure transform. -/
def factoryGetEntities (f : EntityFetcherFactoryModel Args Entity)
    (log : List (DecodedLogEntry Args)) : List Entity :=
  log.filterMap (fun e => f.transformEventCallback e.args)

/-- `pipeEntityFetcherFactory` as the source behaves
(src/lib/web3EventService.ts 201-217, src/unnamed/part_009 226-245): the
property mutation hits only a fetcher object that is dropped on return, and
the function returns the original factory, whose delivery behaviour is
unchanged. -/
def pipeEntityFetcherFactory (f : EntityFetcherFactoryModel Args E₁)
    (t₂ : E₁ → Option E₂) : EntityFetcherFactoryModel Args E₁ :=
  f

/-- The composition the spec prescribes for `pipeEntityFetcherFactory`: the
first transform feeds the second, exclusion at either stage excludes the
event. -/
def pipedTransformSpec (t₁ : Args → Option E₁) (t₂ : E₁ → Option E₂)
    (a : Args) : Option E₂ :=
  (t₁ a).bind t₂

/-! ## ProposalService.getProposalEvents (src/unnamed/part_006 37-70) -/

/-- The transform that `getProposalEvents` hands to
`createEntityFetcherFactory` (src/unnamed/part_006 58-69): in votable-only
mode it first asks the voting machine whether the proposal of the event is
votable and yields no entity when it is not; otherwise it defers to the
caller-supplied transform. -/
def getProposalEventsTransform (votableOnly : Bool) (isVotable : Hash → Bool)
    (pid : Args → Hash) (transformEventCallback : Args → Option Entity)
    (args : Args) : Option Entity :=
  let v := if votableOnly then isVotable (pid args) else true
  if v then transformEventCallback args else none

/-! ## TransactionService (src/lib/transactionService.ts)

The pub/sub registry itself lives in `pubSubEventService.ts`, which is not
among the source files of the repository (only its caller
src/lib/transactionService.ts and the documentation are), so the bus is
modelled from the spec; the TransactionService layer on top of it is
translated from src/lib/transactionService.ts. -/

/-- Hierarchical topic string of the correlation bus. -/
abbrev Topic := String

/-- Modelled from the spec: `PubSubEventService` topic matching, from the
missing `pubSubEventService.ts`.  A subscribed topic matches a published
topic when it is an exact match or a dot-separated prefix of it: subscribing
to "A.B" matches publications to "A.B" and "A.B.C" but not "A.Bx" or "A". -/
def topicMatch (subscribed published : Topic) : Bool :=
  subscribed == published || (subscribed ++ ".").isPrefixOf published

/-- One registration on the bus: the subscribed topic and an identifier for
the callback. -/
structure BusSubscriber where
  topic : Topic
  id : Nat
  deriving Repr, DecidableEq

/-- Modelled from the spec: `PubSubEventService.publish` delivery, from the
missing `pubSubEventService.ts`.  A publish is delivered synchronously to
every subscriber whose subscribed topic matches the published topic, in
registration order. -/
def publishDeliveries (subs : List BusSubscriber) (topic : Topic) : List Nat :=
  (subs.filter (fun s => topicMatch s.topic topic)).map (fun s => s.id)

/-- The payload published for every transaction event
(`TransactionReceiptsEventInfo`, src/lib/transactionService.ts 95-119):
`tx = none` marks the kick-off event.  `invocationKey` is a `symbol` in the
source; symbols are compared by identity, modelled as the value of a counter
that every `Symbol(topic)` call advances. -/
structure TransactionReceiptsEventInfo (Opt Tx : Type) where
  invocationKey : Nat
  options : Opt
  tx : Option Tx
  txCount : Nat
  deriving Repr, DecidableEq

/-- `TransactionService.generateInvocationKey` (src/lib/transactionService.ts
16-18): `Symbol(topic)` yields a fresh key on every call; the topic is only
the symbol description and does not enter its identity. -/
def generateInvocationKey (fresh : Nat) (topic : Topic) : Nat :=
  fresh

/-- `TransactionService.publishTxEvent` (src/lib/transactionService.ts
61-70): when a receipt is supplied the payload is re-published as a copy
with `tx` set to it (`Object.assign({}, payload, { tx })`), otherwise the
payload goes out as given; returns the deliveries and whether any subscriber
existed. -/
def publishTxEvent {Opt Tx : Type} (subs : List BusSubscriber) (topic : Topic)
    (payload : TransactionReceiptsEventInfo Opt Tx) (tx : Option Tx) :
    List (Nat × TransactionReceiptsEventInfo Opt Tx) × Bool :=
  let payload' :=
    match tx with
    | some t => { payload with tx := some t }
    | none => payload
  let ds := (publishDeliveries subs topic).map (fun i => (i, payload'))
  (ds, !ds.isEmpty)

/-- `TransactionService.publishKickoffEvent` (src/lib/transactionService.ts
30-51): build the payload with a freshly generated invocation key, `tx`
null and the given options and txCount; publish it unless suppressed;
return the payload in either case.  The result is (payload, next counter
state, deliveries). -/
def publishKickoffEvent {Opt Tx : Type} (fresh : Nat) (subs : List BusSubscriber)
    (topic : Topic) (options : Opt) (txCount : Nat) (suppressKickOff : Bool) :
    TransactionReceiptsEventInfo Opt Tx × Nat ×
      List (Nat × TransactionReceiptsEventInfo Opt Tx) :=
  let payload : TransactionReceiptsEventInfo Opt Tx :=
    { invocationKey := generateInvocationKey fresh topic
      options := options
      tx := none
      txCount := txCount }
  (payload, fresh + 1,
    if suppressKickOff then [] else (publishTxEvent subs topic payload none).1)

/-- The callback that `TransactionService.resendTxEvents`
(src/lib/transactionService.ts 79-89) registers on the source topics: an
envelope without a receipt (kick-off) is skipped; one with a receipt is
re-published under the super topic as the super payload carrying that
receipt (via `publishTxEvent`, which copies the super payload and sets
`tx`). -/
def resendTxEventsCallback {Opt Tx : Type} (superTopic : Topic)
    (superPayload : TransactionReceiptsEventInfo Opt Tx)
    (received : TransactionReceiptsEventInfo Opt Tx) :
    Option (Topic × TransactionReceiptsEventInfo Opt Tx) :=
  match received.tx with
  | some t => some (superTopic, { superPayload with tx := some t })
  | none => none

/-- End-to-end re-publication scenario: a sequence of publishes, a
`resendTxEvents` registration on `sourceTopic`, and an outer subscriber on
`outerTopic`.  For each publish that reaches the resend registration
(bus matching, modelled from the spec), the callback may re-publish, and the
re-published envelope reaches the outer subscriber when its topic matches. -/
def resendDeliveries {Opt Tx : Type} (sourceTopic superTopic outerTopic : Topic)
    (superPayload : TransactionReceiptsEventInfo Opt Tx)
    (pubs : List (Topic × TransactionReceiptsEventInfo Opt Tx)) :
    List (TransactionReceiptsEventInfo Opt Tx) :=
  pubs.filterMap (fun p =>
    if topicMatch sourceTopic p.1 then
      match resendTxEventsCallback superTopic superPayload p.2 with
      | some q => if topicMatch outerTopic q.1 then some q.2 else none
      | none => none
    else none)

/-! ## VotingMachineService (src/lib/votingMachineService.ts) and the
proposal-scoped facade (src/unnamed/part_008 174-261)

The base service validates its arguments and dispatches to the contract.
To expose what the dynamically-typed dispatch does when the facade passes
arguments out of order, arguments are modelled as JavaScript values. -/

/-- A JavaScript value as the voting layer passes them around: a number, a
string (addresses, hashes), a BigNumber object (reputation amounts, not a
JS number), or undefined. -/
inductive JsVal where
  | num (n : Int)
  | str (s : String)
  | big (n : Int)
  | undef
  deriving Repr, DecidableEq

/-- JavaScript truthiness of the modelled values, as the guards
`if (!proposalId)` test them. -/
def JsVal.truthy : JsVal → Bool
  | .num n => n != 0
  | .str s => s != ""
  | .big _ => true
  | .undef => false

/-- Whether `typeof v === "number"` holds for a modelled value. -/
def JsVal.isNumber : JsVal → Bool
  | .num _ => true
  | _ => false

/-- The raw `IntVoteInterface` contract binding: each operation returns an
abstract receipt or value.  Operations take the arguments in the positional
order of the contract interface (src/lib/votingMachineService.ts 152-170). -/
structure IntVoteContract where
  voteFn : JsVal → JsVal → Nat
  ownerVoteFn : JsVal → JsVal → JsVal → Nat
  voteWithSpecifiedAmountsFn : JsVal → JsVal → JsVal → JsVal → Nat
  voteStatusFn : JsVal → JsVal → Nat
  cancelProposalFn : JsVal → Nat
  cancelVoteFn : JsVal → Nat
  getNumberOfChoicesFn : JsVal → Nat
  isVotableFn : JsVal → Bool

namespace VotingMachineService

/-- `validateVote` (src/lib/votingMachineService.ts 136-140): the vote must
be a number greater than or equal to zero. -/
def validateVote (vote : JsVal) : Except JsError Unit :=
  match vote with
  | .num n =>
    if n < 0 then .error "vote must be a number greater than or equal to zero"
    else .ok ()
  | _ => .error "vote must be a number greater than or equal to zero"

/-- `VotingMachineService.vote` (src/lib/votingMachineService.ts 81-87). -/
def vote (c : IntVoteContract) (proposalId voteVal : JsVal) :
    Except JsError Nat :=
  if !proposalId.truthy then .error "proposalId is not defined"
  else
    match validateVote voteVal with
    | .error e => .error e
    | .ok _ => .ok (c.voteFn proposalId voteVal)

/-- `VotingMachineService.ownerVote` (src/lib/votingMachineService.ts 70-79). -/
def ownerVote (c : IntVoteContract) (proposalId voteVal voterAddress : JsVal) :
    Except JsError Nat :=
  if !proposalId.truthy then .error "proposalId is not defined"
  else
    match validateVote voteVal with
    | .error e => .error e
    | .ok _ =>
      if !voterAddress.truthy then .error "voterAddress is not defined"
      else .ok (c.ownerVoteFn proposalId voteVal voterAddress)

/-- `VotingMachineService.voteWithSpecifiedAmounts`
(src/lib/votingMachineService.ts 89-101): the token amount passed to the
contract is always `new BigNumber(0)`. -/
def voteWithSpecifiedAmounts (c : IntVoteContract)
    (proposalId voteVal rep : JsVal) : Except JsError Nat :=
  if !proposalId.truthy then .error "proposalId is not defined"
  else
    match validateVote voteVal with
    | .error e => .error e
    | .ok _ => .ok (c.voteWithSpecifiedAmountsFn proposalId voteVal rep (.big 0))

/-- `VotingMachineService.voteStatus` (src/lib/votingMachineService.ts
124-130). -/
def voteStatus (c : IntVoteContract) (proposalId voteVal : JsVal) :
    Except JsError Nat :=
  if !proposalId.truthy then .error "proposalId is not defined"
  else
    match validateVote voteVal with
    | .error e => .error e
    | .ok _ => .ok (c.voteStatusFn proposalId voteVal)

/-- `VotingMachineService.cancelProposal` (src/lib/votingMachineService.ts
63-68). -/
def cancelProposal (c : IntVoteContract) (proposalId : JsVal) :
    Except JsError Nat :=
  if !proposalId.truthy then .error "proposalId is not defined"
  else .ok (c.cancelProposalFn proposalId)

/-- `VotingMachineService.cancelVote` (src/lib/votingMachineService.ts
103-108). -/
def cancelVote (c : IntVoteContract) (proposalId : JsVal) :
    Except JsError Nat :=
  if !proposalId.truthy then .error "proposalId is not defined"
  else .ok (c.cancelVoteFn proposalId)

/-- `VotingMachineService.getNumberOfChoices`
(src/lib/votingMachineService.ts 110-115). -/
def getNumberOfChoices (c : IntVoteContract) (proposalId : JsVal) :
    Except JsError Nat :=
  if !proposalId.truthy then .error "proposalId is not defined"
  else .ok (c.getNumberOfChoicesFn proposalId)

/-- `VotingMachineService.isVotable` (src/lib/votingMachineService.ts
117-122). -/
def isVotable (c : IntVoteContract) (proposalId : JsVal) :
    Except JsError Bool :=
  if !proposalId.truthy then .error "proposalId is not defined"
  else .ok (c.isVotableFn proposalId)

end VotingMachineService

namespace ProposalVotingMachineService

/-- `ProposalVotingMachineService.vote` (src/unnamed/part_008 206-208):
`super.vote(vote, this.proposalId)` — the bound proposal id is passed as the
second argument although the base signature is `vote(proposalId, vote)`. -/
def vote (c : IntVoteContract) (proposalId voteVal : JsVal) :
    Except JsError Nat :=
  VotingMachineService.vote c voteVal proposalId

/-- `ProposalVotingMachineService.ownerVote` (src/unnamed/part_008 198-200):
`super.ownerVote(vote, voterAddress, this.proposalId)` against the base
signature `ownerVote(proposalId, vote, voterAddress)`. -/
def ownerVote (c : IntVoteContract) (proposalId voteVal voterAddress : JsVal) :
    Except JsError Nat :=
  VotingMachineService.ownerVote c voteVal voterAddress proposalId

/-- `ProposalVotingMachineService.voteWithSpecifiedAmounts`
(src/unnamed/part_008 217-219): `super.voteWithSpecifiedAmounts(vote,
reputation, this.proposalId)` against the base signature
`voteWithSpecifiedAmounts(proposalId, vote, rep)`. -/
def voteWithSpecifiedAmounts (c : IntVoteContract)
    (proposalId voteVal rep : JsVal) : Except JsError Nat :=
  VotingMachineService.voteWithSpecifiedAmounts c voteVal rep proposalId

/-- `ProposalVotingMachineService.voteStatus` (src/unnamed/part_008
250-252): `super.voteStatus(vote, this.proposalId)` against the base
signature `voteStatus(proposalId, vote)`. -/
def voteStatus (c : IntVoteContract) (proposalId voteVal : JsVal) :
    Except JsError Nat :=
  VotingMachineService.voteStatus c voteVal proposalId

/-- `ProposalVotingMachineService.cancelProposal` (src/unnamed/part_008
189-191): delegates with the bound proposal id in the right position. -/
def cancelProposal (c : IntVoteContract) (proposalId : JsVal) :
    Except JsError Nat :=
  VotingMachineService.cancelProposal c proposalId

/-- `ProposalVotingMachineService.cancelVote` (src/unnamed/part_008
225-227). -/
def cancelVote (c : IntVoteContract) (proposalId : JsVal) :
    Except JsError Nat :=
  VotingMachineService.cancelVote c proposalId

/-- `ProposalVotingMachineService.getNumberOfChoices` (src/unnamed/part_008
233-235). -/
def getNumberOfChoices (c : IntVoteContract) (proposalId : JsVal) :
    Except JsError Nat :=
  VotingMachineService.getNumberOfChoices c proposalId

/-- `ProposalVotingMachineService.isVotable` (src/unnamed/part_008
241-243). -/
def isVotable (c : IntVoteContract) (proposalId : JsVal) :
    Except JsError Bool :=
  VotingMachineService.isVotable c proposalId

end ProposalVotingMachineService

/-- A concrete contract binding whose operations return distinct receipt
values, used to evaluate the facade at concrete inputs. -/
def testContract : IntVoteContract where
  voteFn := fun _ _ => 11
  ownerVoteFn := fun _ _ _ => 12
  voteWithSpecifiedAmountsFn := fun _ _ _ _ => 13
  voteStatusFn := fun _ _ => 14
  cancelProposalFn := fun _ => 15
  cancelVoteFn := fun _ => 16
  getNumberOfChoicesFn := fun _ => 3
  isVotableFn := fun _ => true

/-! ## Helper lemmas for the batch-transform loop -/

theorem transformBatchTimed_val (t : Args → Timed (Option Entity))
    (log : List (DecodedLogEntry Args)) :
    (transformBatchTimed t log).val = log.filterMap (fun e => (t e.args).val) := by
  induction log with
  | nil => rfl
  | cons e rest ih =>
    cases hv : (t e.args).val with
    | none => simp [transformBatchTimed, List.filterMap_cons, hv, ih]
    | some x => simp [transformBatchTimed, List.filterMap_cons, hv, ih]

theorem transformBatchTimed_time (t : Args → Timed (Option Entity))
    (log : List (DecodedLogEntry Args)) :
    (transformBatchTimed t log).time = (log.map (fun e => (t e.args).time)).sum := by
  induction log with
  | nil => rfl
  | cons e rest ih => simp [transformBatchTimed, ih]

theorem filterMap_map_some_sublist (f : α → Option β) (l : List α) :
    List.Sublist ((l.filterMap f).map some) (l.map f) := by
  induction l with
  | nil => simp
  | cons a l ih =>
    cases hfa : f a with
    | none =>
      simp only [List.filterMap_cons, hfa, List.map_cons]
      exact ih.cons none
    | some b =>
      simp only [List.filterMap_cons, hfa, List.map_cons]
      exact ih.cons₂ (some b)

/-- Concrete transform used in witnesses: exclude the event whose payload is
zero, keep every other payload. -/
def excludeZero (a : Nat) : Except JsError (Option Nat) :=
  .ok (if a = 0 then none else some a)

/-- Concrete voting-machine stub used in witnesses: only proposal "p2" is
votable. -/
def votableStub (p : Hash) : Bool :=
  p == "p2"

/-! ## The claims -/

/-- Claim C1: for every EventFetcher with deduplication enabled, and for
every sequence of raw events delivered within one get/watch window of that
fetcher in which the same transaction identity appears k>1 times, exactly
one delivery occurs for that transaction identity.  The seen set is the
explicit state of one fetcher instance, created empty when the fetcher is
constructed (src/lib/web3EventService.ts 47-49 and 228-232) and threaded
through the deliveries of that instance only; the statement quantifies over
the window of an arbitrary instance started from its own empty set, so no
other instance can influence it. -/
theorem C1_dedup_exactly_once_per_identity (Args : Type) (h : Hash)
    (w : List (Option JsError × RawLog Args))
    (hk : 1 < windowCount h w) :
    deliveredCount h (fetcherRun (some true) [] w).2 = 1 := by
  have hmain := (deliveredCount_fetcherRun_dedup h [] w).1
  simp only [List.not_mem_nil, if_false] at hmain
  omega

/-- Witness for C1: one window whose single batch carries the same
transaction hash twice; exactly one entry is delivered. -/
theorem C1_dedup_exactly_once_per_identity_witness :
    1 < windowCount "0xaa" [((none : Option JsError),
      RawLog.list [(⟨"0xaa", 0⟩ : DecodedLogEntry Nat), ⟨"0xaa", 1⟩])] ∧
    deliveredCount "0xaa" (fetcherRun (some true) []
      [((none : Option JsError),
        RawLog.list [(⟨"0xaa", 0⟩ : DecodedLogEntry Nat), ⟨"0xaa", 1⟩])]).2 = 1 :=
  ⟨by decide, C1_dedup_exactly_once_per_identity Nat "0xaa" _ (by decide)⟩

/-- Claim C2, evaluated on the revision src/lib/web3EventService.ts the
claim cites (lines 128-151): when the underlying source reports an error to
a `get` of an EntityFetcher, the promise of entities RESOLVES with `[]`
instead of rejecting with that error (the `if (!!error)` branch transforms
and resolves), and when the source reports no error the promise REJECTS
with the absent error (the `else` branch calls `reject(error)`).  The
revision src/unnamed/part_009 lines 194-204 rejects correctly, which is the
behaviour the claim and the comments of both revisions describe. -/
theorem C2_lib_revision_error_handling_inverted :
    entityGetLib Nat (some false) [] (some "connection lost")
      (RawLog.list [(⟨"0xaa", 0⟩ : DecodedLogEntry Nat)]) = .ok [] ∧
    entityGetLib Nat (some false) [] none
      (RawLog.list [(⟨"0xaa", 0⟩ : DecodedLogEntry Nat)]) = .error none :=
  ⟨rfl, rfl⟩

/-- Claim C3: a `get` batch of an EntityFetcher resolves only after the
asynchronous transform of every event in the batch has completed (its
resolution time is the sum of all per-event transform times, since the loop
of src/unnamed/part_009 154-162 awaits each transform in order), and the
delivered entity array is the order-preserving subsequence of the per-event
transform results obtained by dropping the exclusions. -/
theorem C3_batch_completion_and_order (Args Entity : Type)
    (t : Args → Timed (Option Entity)) (log : List (DecodedLogEntry Args)) :
    (transformBatchTimed t log).val = log.filterMap (fun e => (t e.args).val) ∧
    (transformBatchTimed t log).time = (log.map (fun e => (t e.args).time)).sum ∧
    List.Sublist ((transformBatchTimed t log).val.map some)
      (log.map (fun e => (t e.args).val)) := by
  refine ⟨transformBatchTimed_val t log, transformBatchTimed_time t log, ?_⟩
  rw [transformBatchTimed_val t log]
  exact filterMap_map_some_sublist _ log

/-- Claim C4: an event whose transform signals exclusion contributes zero
entries to the delivered entity array and raises no error: the batch result
with that event present equals the batch result with it absent, and a batch
of only excluded events resolves to the empty array. -/
theorem C4_exclusion_zero_entries_no_error (Args Entity : Type)
    (t : Args → Except JsError (Option Entity)) (e : DecodedLogEntry Args)
    (l₁ l₂ : List (DecodedLogEntry Args)) (he : t e.args = .ok none) :
    transformBatch t (l₁ ++ e :: l₂) = transformBatch t (l₁ ++ l₂) ∧
    transformBatch t [e] = .ok [] := by
  constructor
  · induction l₁ with
    | nil => simp [transformBatch, he]
    | cons a l ih =>
      cases ht : t a.args with
      | error err => simp [transformBatch, ht]
      | ok oe => cases oe <;> simp [transformBatch, ht, ih]
  · simp [transformBatch, he]

/-- Witness for C4: the zero payload is excluded by `excludeZero`; the batch
with it equals the batch without it, and its singleton batch resolves
empty. -/
theorem C4_exclusion_zero_entries_no_error_witness :
    excludeZero 0 = .ok none ∧
    (transformBatch excludeZero ([⟨"0xa", 1⟩] ++ ⟨"0xb", 0⟩ :: [⟨"0xc", 2⟩]) =
      transformBatch excludeZero ([⟨"0xa", 1⟩] ++ [⟨"0xc", 2⟩]) ∧
    transformBatch excludeZero [⟨"0xb", 0⟩] = .ok []) :=
  ⟨rfl,
    C4_exclusion_zero_entries_no_error Nat Nat excludeZero ⟨"0xb", 0⟩
      [⟨"0xa", 1⟩] [⟨"0xc", 2⟩] rfl⟩

/-- Claim C5, evaluated on the source: a factory call whose filter options
do not set `suppressDups` (modelled as `none`) creates no seen set, because
`createEventHandler` tests `if (!!suppressDups)` and `!!undefined` is false
(src/lib/web3EventService.ts 47-49, 228-232; identical in
src/unnamed/part_009 53-55, 256-260), so the same transaction identity is
delivered again; with `suppressDups` explicitly true the re-delivery is
suppressed.  This contradicts the claim and the documented default
("The default is true", src/lib/web3EventService.ts 377-380). -/
theorem C5_dedup_not_enabled_by_default :
    deliveredCount "0xaa" (fetcherRun none []
      [((none : Option JsError), RawLog.list [(⟨"0xaa", 0⟩ : DecodedLogEntry Nat)]),
       (none, RawLog.list [⟨"0xaa", 1⟩])]).2 = 2 ∧
    deliveredCount "0xaa" (fetcherRun (some true) []
      [((none : Option JsError), RawLog.list [(⟨"0xaa", 0⟩ : DecodedLogEntry Nat)]),
       (none, RawLog.list [⟨"0xaa", 1⟩])]).2 = 1 :=
  ⟨by decide, by decide⟩

/-- Claim C6, evaluated on the source: `pipeEntityFetcherFactory` does not
deliver the sequential composition of the two transforms.  It returns the
original factory object (src/unnamed/part_009 line 244), whose fetchers run
the closure transform captured by `createEntityFetcherFactory`
(src/unnamed/part_009 line 157), untouched by the property assignment on
the one discarded fetcher; with first transform n+1 and second transform
2*n over payload 3 the piped factory delivers [4] where the specified
composition yields [8]. -/
theorem C6_pipe_does_not_compose :
    factoryGetEntities
      (pipeEntityFetcherFactory ⟨fun n : Nat => some (n + 1)⟩
        (fun n : Nat => some (2 * n)))
      [⟨"0xaa", 3⟩] = [4] ∧
    [(⟨"0xaa", 3⟩ : DecodedLogEntry Nat)].filterMap
      (fun e => pipedTransformSpec (fun n : Nat => some (n + 1))
        (fun n : Nat => some (2 * n)) e.args) = [8] :=
  ⟨rfl, rfl⟩

/-- Claim C7: in votable-only mode with a voting machine supplied, the
transform built by `ProposalService.getProposalEvents` excludes every event
whose proposal the voting machine reports as not votable and yields exactly
the caller-supplied transform result for a votable one; over two events for
p1 (not votable) and p2 (votable) exactly one entity is produced, for p2. -/
theorem C7_votable_only_filtering (Args Entity : Type)
    (isVotableStub : Hash → Bool) (pid : Args → Hash) (dt : Args → Option Entity)
    (e₁ e₂ : DecodedLogEntry Args) (ent : Entity)
    (h₁ : isVotableStub (pid e₁.args) = false)
    (h₂ : isVotableStub (pid e₂.args) = true)
    (hd : dt e₂.args = some ent) :
    transformBatch
      (fun a => .ok (getProposalEventsTransform true isVotableStub pid dt a))
      [e₁, e₂] = .ok [ent] ∧
    (∀ a, isVotableStub (pid a) = false →
      getProposalEventsTransform true isVotableStub pid dt a = none) ∧
    (∀ a, isVotableStub (pid a) = true →
      getProposalEventsTransform true isVotableStub pid dt a = dt a) := by
  refine ⟨?_, ?_, ?_⟩
  · simp [transformBatch, getProposalEventsTransform, h₁, h₂, hd, Except.map]
  · intro a ha
    simp [getProposalEventsTransform, ha]
  · intro a ha
    simp [getProposalEventsTransform, ha]

/-- Witness for C7: the stub reports p1 not votable and p2 votable; the
two-event batch yields exactly the entity for p2. -/
theorem C7_votable_only_filtering_witness :
    votableStub "p1" = false ∧ votableStub "p2" = true ∧
    transformBatch
      (fun a => .ok (getProposalEventsTransform true votableStub id
        (fun a : Hash => some a) a))
      [⟨"0xt1", "p1"⟩, ⟨"0xt2", "p2"⟩] = .ok ["p2"] :=
  ⟨by decide, by decide,
    (C7_votable_only_filtering Hash Hash votableStub id (fun a => some a)
      ⟨"0xt1", "p1"⟩ ⟨"0xt2", "p2"⟩ "p2" (by decide) (by decide) (by decide)).1⟩

/-- Claim C8: `publishKickoffEvent` returns an envelope whose invocationKey
is the freshly generated key of this call (strictly below the returned next
counter state, so every later call generates a different key), whose tx is
null and whose options and txCount are the given ones; the envelope goes to
the matching subscribers exactly when `suppressKickOff` is false, and is
returned to the caller in either case.  The pub/sub delivery itself is
modelled from the spec (`pubSubEventService.ts` is not among the source
files). -/
theorem C8_publishKickoffEvent_envelope (Opt Tx : Type) (fresh : Nat)
    (subs : List BusSubscriber) (topic : Topic) (opts : Opt)
    (txCount : Nat) (suppressKickOff : Bool) :
    (@publishKickoffEvent Opt Tx fresh subs topic opts txCount
        suppressKickOff).1 =
      { invocationKey := fresh, options := opts, tx := none,
        txCount := txCount } ∧
    (@publishKickoffEvent Opt Tx fresh subs topic opts txCount
        suppressKickOff).2.1 = fresh + 1 ∧
    (@publishKickoffEvent Opt Tx fresh subs topic opts txCount
        suppressKickOff).2.2 =
      (if suppressKickOff then [] else
        (subs.filter (fun s => topicMatch s.topic topic)).map
          (fun s => (s.id,
            ({ invocationKey := fresh, options := opts, tx := none,
               txCount := txCount } : TransactionReceiptsEventInfo Opt Tx)))) ∧
    (∀ (fresh₂ : Nat) (subs₂ : List BusSubscriber) (topic₂ : Topic)
      (opts₂ : Opt) (txCount₂ : Nat) (sup₂ : Bool), fresh + 1 ≤ fresh₂ →
      (@publishKickoffEvent Opt Tx fresh subs topic opts txCount
          suppressKickOff).1.invocationKey <
        (@publishKickoffEvent Opt Tx fresh₂ subs₂ topic₂ opts₂ txCount₂
            sup₂).1.invocationKey) := by
  refine ⟨rfl, rfl, ?_, ?_⟩
  · cases suppressKickOff with
    | true => rfl
    | false =>
      simp [publishKickoffEvent, publishTxEvent, publishDeliveries,
        generateInvocationKey, List.map_map, Function.comp]
  · intro fresh₂ _ _ _ _ _ hle
    simp only [publishKickoffEvent, generateInvocationKey]
    omega

/-- Claim C9: the `resendTxEvents` callback republishes a received envelope
under the super topic exactly when it carries a transaction receipt, and
the republished envelope is the super envelope (its invocationKey, options
and txCount) carrying the received tx; two transactions published under
the re-published inner topic "inner.a" produce exactly two deliveries to a
subscriber of "outer".  Bus matching is modelled from the spec
(`pubSubEventService.ts` is not among the source files). -/
theorem C9_resend_republishes_tx_events (Opt Tx : Type) (superTopic : Topic)
    (sp received : TransactionReceiptsEventInfo Opt Tx)
    (i₀ i₁ i₂ : Nat) (o₀ o₁ o₂ : Opt) (c₀ c₁ c₂ : Nat) (t₁ t₂ : Tx) :
    (resendTxEventsCallback superTopic sp received).isSome =
      received.tx.isSome ∧
    resendTxEventsCallback superTopic sp received =
      received.tx.map (fun t => (superTopic, { sp with tx := some t })) ∧
    resendDeliveries "inner.a" "outer" "outer" sp
      [("inner.a", ⟨i₀, o₀, none, c₀⟩), ("inner.a", ⟨i₁, o₁, some t₁, c₁⟩),
       ("inner.a", ⟨i₂, o₂, some t₂, c₂⟩)] =
      [{ sp with tx := some t₁ }, { sp with tx := some t₂ }] := by
  refine ⟨?_, ?_, ?_⟩
  · cases hr : received.tx <;> simp [resendTxEventsCallback, hr]
  · cases hr : received.tx <;> simp [resendTxEventsCallback, hr]
  · simp [resendDeliveries, resendTxEventsCallback, topicMatch]

/-- Claim C10, evaluated on the source: the proposal-scoped facade passes
its bound proposalId as the LAST argument of the base call although the
base signatures take the proposalId FIRST (src/unnamed/part_008 198-199,
206-207, 217-218, 250-251 against src/lib/votingMachineService.ts 70, 81,
89, 124), so `vote`, `ownerVote`, `voteWithSpecifiedAmounts` and
`voteStatus` hand the vote number to the proposalId check and the bound
proposalId (or the voter address or reputation amount) to `validateVote`,
which rejects every such call with the vote-validation error instead of
behaving like the base operation on the bound proposalId;
`cancelProposal` (and the other single-argument operations) delegate
correctly. -/
theorem C10_facade_swaps_argument_order :
    ProposalVotingMachineService.vote testContract (.str "0xabc") (.num 1) =
      .error "vote must be a number greater than or equal to zero" ∧
    VotingMachineService.vote testContract (.str "0xabc") (.num 1) = .ok 11 ∧
    ProposalVotingMachineService.ownerVote testContract (.str "0xabc")
      (.num 1) (.str "0xvoter") =
      .error "vote must be a number greater than or equal to zero" ∧
    VotingMachineService.ownerVote testContract (.str "0xabc") (.num 1)
      (.str "0xvoter") = .ok 12 ∧
    ProposalVotingMachineService.voteWithSpecifiedAmounts testContract
      (.str "0xabc") (.num 1) (.big 10) =
      .error "vote must be a number greater than or equal to zero" ∧
    VotingMachineService.voteWithSpecifiedAmounts testContract (.str "0xabc")
      (.num 1) (.big 10) = .ok 13 ∧
    ProposalVotingMachineService.voteStatus testContract (.str "0xabc")
      (.num 1) =
      .error "vote must be a number greater than or equal to zero" ∧
    VotingMachineService.voteStatus testContract (.str "0xabc") (.num 1) =
      .ok 14 ∧
    ProposalVotingMachineService.cancelProposal testContract (.str "0xabc") =
      VotingMachineService.cancelProposal testContract (.str "0xabc") ∧
    ProposalVotingMachineService.isVotable testContract (.str "0xabc") =
      VotingMachineService.isVotable testContract (.str "0xabc") :=
  ⟨rfl, rfl, rfl, rfl, rfl, rfl, rfl, rfl, rfl, rfl⟩

end ArcJs
